import Mathlib

/-! Shallow embedding of scripts/reflection.py.

Python strings are modelled as `List Char`; Python string primitives
(substring test, split, strip, slicing) are given executable definitions
whose behaviour matches CPython on the inputs the script uses
(separators are always nonempty literals).  The text-generation backend
(vllm `llm.generate`) and the chat-template renderer
(`tokenizer.apply_chat_template`) are opaque collaborators, modelled as
function parameters; every `run_*` function additionally returns the
trace of generate calls it issued, so that call-structure properties can
be stated.
-/

/-- Python strings as lists of characters. -/
abbrev Str := List Char

/-- Convert a Lean string literal to the `List Char` model. -/
def strData (s : String) : Str := s.data

/-- Prefix test: `startsWithL pat s` is true iff `pat` is a prefix of `s`. -/
def startsWithL : Str → Str → Bool
  | [], _ => true
  | _ :: _, [] => false
  | p :: ps, c :: cs => p == c && startsWithL ps cs

/-- Decomposition at the first occurrence of the nonempty separator
`s0 :: st`: returns the text strictly before the first occurrence and the
text strictly after it, or `none` when the separator does not occur.
This is the leftmost-match search underlying Python `sub in s` and
`s.split(sub)`. -/
def breakOn (s0 : Char) (st : Str) : Str → Option (Str × Str)
  | [] => none
  | c :: rest =>
    if startsWithL (s0 :: st) (c :: rest) then
      some ([], rest.drop st.length)
    else
      (breakOn s0 st rest).map (fun p => (c :: p.1, p.2))

/-- First-occurrence decomposition for an arbitrary separator. -/
def pyBreak (sep s : Str) : Option (Str × Str) :=
  match sep with
  | [] => some ([], s)
  | s0 :: st => breakOn s0 st s

/-- Python `sub in s` (substring containment). -/
def pyIn (sub s : Str) : Bool := (pyBreak sub s).isSome

/-- Python `s.split(sep)` for a nonempty separator, written with fuel so
that the recursion is structural; any `fuel > s.length` gives the true
result, since each occurrence found consumes at least one character. -/
def splitGo : Nat → Char → Str → Str → List Str
  | 0, _, _, s => [s]
  | fuel + 1, s0, st, s =>
    match breakOn s0 st s with
    | none => [s]
    | some (pre, post) => pre :: splitGo fuel s0 st post

/-- Python `s.split(sep)`.  The script never splits on an empty separator
(Python would raise ValueError there); that case is given a harmless
value. -/
def pySplit (sep s : Str) : List Str :=
  match sep with
  | [] => [s]
  | s0 :: st => splitGo (s.length + 1) s0 st s

/-- The six ASCII whitespace characters stripped by Python `str.strip()`. -/
def isPySpace (c : Char) : Bool :=
  c = ' ' || c = '\t' || c = '\n' || c = '\x0b' || c = '\x0c' || c = '\r'

/-- Python `s.strip()` (ASCII whitespace). -/
def pyStrip (s : Str) : Str :=
  ((s.dropWhile isPySpace).reverse.dropWhile isPySpace).reverse

/-- Python `s[-n:]` for `n > 0`: the last `n` characters (all of `s` when
it is shorter). -/
def pyTakeLast (n : Nat) (s : Str) : Str := s.drop (s.length - n)


/-- vllm SamplingParams, restricted to the fields the script sets; the
temperature is kept in tenths so the model stays within the integers
(0.1 becomes 1, and so on). -/
structure SamplingParams where
  max_tokens : Nat
  temperatureTenths : Nat

/-- One call to `llm.generate`: the batch of rendered prompts handed to
the backend, together with the sampling parameters. -/
structure GenCall where
  batch : List Str
  params : SamplingParams

/-- Result of a `run_*` function: the Python return value plus the trace
of generate calls the invocation issued, in order. -/
structure RunOut (α : Type) where
  ret : α
  calls : List GenCall

/-- A search-result record, accessed in the script as a dict via
`r.get(key, default)`: the snippet field may be missing. -/
structure ResultRecord where
  snippet : Option Str

/-- Python `r.get(key, "")` for the snippet field. -/
def getSnippet (r : ResultRecord) : Str := r.snippet.getD []

/-! Section: prompt templates, as rendered by `str.format`.

Each `_fmt` function is the result of `TEMPLATE.format(...)` on the
corresponding module-level template literal: the literal text with each
placeholder replaced by the given argument.  `str.format` silently
ignores keyword arguments that have no placeholder in the template; the
two call sites that pass such dead arguments are noted below. -/

/-- Rendering of `JUDGE_SNIPPET_PROMPT.format(question=…, history=…, query=…, snippets=…)`.
The template has placeholders for question, query and snippets only; the
history keyword passed at the call site has no placeholder and is
dropped by `str.format`. -/
def JUDGE_SNIPPET_PROMPT_fmt (question query snippets : Str) : Str :=
  strData "\nYou are a relevance evaluator.\nUser Question: " ++ question
  ++ strData "\nSearch Query Used: " ++ query
  ++ strData "\nSearch Results (Snippets):\n" ++ snippets
  ++ strData "\n\nTask: Do these snippets appear RELEVANT and helpful for the search query?\n- If YES, output exactly: \"JUDGEMENT: YES\"\n- If NO, output exactly: \"JUDGEMENT: NO | Reason: [Short explanation of why it failed]\"\n\nExample of NO: \"JUDGEMENT: NO | Reason: The results are about fruit apple, but the user asked about Apple Inc. tech.\"\n"

/-- Rendering of `REFLECTION_QUERY_PROMPT.format(question=…, history=…, query=…, reason=…)`.
Again the history keyword has no placeholder in the template and is
dropped by `str.format`. -/
def REFLECTION_QUERY_PROMPT_fmt (question query reason : Str) : Str :=
  strData "\nThe previous search query failed.\nUser Question: " ++ question
  ++ strData "\nFailed Query: " ++ query
  ++ strData "\nJudge\x27s Complaint: " ++ reason
  ++ strData "\n\nTask: Write a NEW, better search query that specifically addresses the Judge\x27s complaint.\nOutput Format:\nReasoning: [How I will fix the error]\nNew_Query: [The new query string]\n"

/-- Rendering of `PRESENCE_CHECK_PROMPT.format(search_query=…, document_text=…)`. -/
def PRESENCE_CHECK_PROMPT_fmt (search_query document_text : Str) : Str :=
  strData "\nYou are a Fact Validator.\nUser Query: \"" ++ search_query
  ++ strData "\"\nSearch Results:\n\"" ++ document_text
  ++ strData "\"\n\nTask: Determine if the answer to the query is present ANYWHERE in these search results.\n- If the text contains specific facts, numbers, or names that answer the query, output \"STATUS: PRESENT\".\n- If the text is irrelevant or does not contain the answer, output \"STATUS: ABSENT\".\n"

/-- Rendering of `REFINE_EXTRACTION_PROMPT.format(search_query=…, document_text=…)`. -/
def REFINE_EXTRACTION_PROMPT_fmt (search_query document_text : Str) : Str :=
  strData "\nYou previously missed the information in these documents.\nUser Query: \"" ++ search_query
  ++ strData "\"\nSearch Results:\n\"" ++ document_text
  ++ strData "\"\n\nValidator Note: The answer IS present in these results.\n\nTask: Read the results again carefully and extract the EXACT answer to the query.\n- Start your response with \"**Final Information**\" followed by the extracted facts.\n- If you still cannot find it (despite the note), output \"No helpful information found.\"\n"

/-- Rendering of `JUDGE_CONTENT_PROMPT.format(search_query=…, history=…, info=…)`. -/
def JUDGE_CONTENT_PROMPT_fmt (search_query history info : Str) : Str :=
  strData "\nYou are evaluating if a search result was successful.\n\nSearch Query Used: " ++ search_query
  ++ strData "\nReasoning Context: ..." ++ history
  ++ strData "...\nExtracted Information: " ++ info
  ++ strData "\n\nTask: Did this search successfully find the information requested in the **Search Query**?\n(Do NOT judge based on whether it fully answers the ultimate user question, only if it satisfied the immediate search intent.)\n\n- If the search query asked for \"CEO name\" and the text contains \"Tim Cook\", say YES.\n- If the text is irrelevant to the query, say NO.\n\nOutput format:\n\"JUDGEMENT: YES\" \nor \n\"JUDGEMENT: NO | Reason: [Explain exactly what is missing]\"\n"

/-- Rendering of `REFLECTION_CONTENT_PROMPT.format(question=…, search_query=…, info=…, reason=…)`. -/
def REFLECTION_CONTENT_PROMPT_fmt (question search_query reason info : Str) : Str :=
  strData "\nThe extracted information was judged as INSUFFICIENT to answer the search query.\nUser Question: " ++ question
  ++ strData "\nSearch Query: " ++ search_query
  ++ strData "\nJudge\x27s Verdict: " ++ reason
  ++ strData "\nCurrent Info: " ++ info
  ++ strData "\n\nTask:\n1. Analyze what specific information is still missing.\n2. Propose a high-level SEARCH DIRECTION or STRATEGY to find this missing information.\n\nOutput Format:\nAnalysis: [What is missing]\nSearch_Direction: [Strategic advice for the next step]\n"

/-- Rendering of `HALLUCINATION_CHECK_PROMPT.format(question=…, final_answer=…)`. -/
def HALLUCINATION_CHECK_PROMPT_fmt (question final_answer : Str) : Str :=
  strData "\nYou are a Fact Checker.\nUser Question: " ++ question
  ++ strData "\nProposed Final Answer: " ++ final_answer
  ++ strData "\n\nTask: Does this answer contain specific factual claims (dates, numbers, names) that appear UNVERIFIED or possibly hallucinated given the context?\n- If the answer is safe or generic, say NO.\n- If the answer makes specific claims without clear evidence in reasoning history, say YES.\n\nOutput exactly: \"JUDGEMENT: YES\" or \"JUDGEMENT: NO\"\n"

/-! Section: logic functions (reflection.py lines 111-233).

Each `run_*` below mirrors one Python function.  `render` stands for
`tokenizer.apply_chat_template` applied to the single user message the
script always builds, and `gen` stands for `llm.generate` returning the
completion text of the one prompt in the batch (`output[0].outputs[0].text`). -/

/-- The derived prompt of run_judge_snippet: snippets of the first 5
result records, each truncated to its first 150 characters, joined by
newlines with a leading dash, substituted into the judgment template. -/
def judgeSnippetPromptOf (question query : Str) (results : List ResultRecord) : Str :=
  JUDGE_SNIPPET_PROMPT_fmt question query
    (List.intercalate (strData "\n")
      ((results.take 5).map (fun r => strData "- " ++ (getSnippet r).take 150)))

/-- Verdict parsing of run_judge_snippet (lines 126-132): YES anywhere
passes; else NO fails with the text of `split("| Reason:")[1].strip()`,
the IndexError from a missing delimiter being caught and replaced by the
fixed fallback; else fail-open `(True, None)`. -/
def judgeVerdictSnippet (response : Str) : Bool × Option Str :=
  if pyIn (strData "JUDGEMENT: YES") response then (true, none)
  else if pyIn (strData "JUDGEMENT: NO") response then
    match pySplit (strData "| Reason:") response with
    | _ :: p :: _ => (false, some (pyStrip p))
    | _ => (false, some (strData "Results appeared irrelevant."))
  else (true, none)

/-- reflection.py run_judge_snippet: Gate 1, checks snippet relevance. -/
def run_judge_snippet (render gen : Str → Str)
    (question history query : Str) (results : List ResultRecord) :
    RunOut (Bool × Option Str) :=
  let history_short := if history.isEmpty then [] else pyTakeLast 500 history
  let prompt_content := judgeSnippetPromptOf question query results
  let text_input := render prompt_content
  let response := gen text_input
  { ret := judgeVerdictSnippet response,
    calls := [{ batch := [text_input],
                params := { max_tokens := 500, temperatureTenths := 1 } }] }

/-- The prompt of run_reflection_query (the template drops the history
keyword, which run_reflection_query computes and passes). -/
def reflectionQueryPromptOf (question failed_query failure_reason : Str) : Str :=
  REFLECTION_QUERY_PROMPT_fmt question failed_query failure_reason

/-- Extraction of run_reflection_query (lines 147-150): if the label
occurs, `split("New_Query:")[1].strip().split("\n")[0]`; the except
branch returning None is unreachable once the label is present. -/
def extractNewQuery (response : Str) : Option Str :=
  if pyIn (strData "New_Query:") response then
    match pySplit (strData "New_Query:") response with
    | _ :: p :: _ => some ((pySplit (strData "\n") (pyStrip p)).headD [])
    | _ => none
  else none

/-- reflection.py run_reflection_query: Gate 1 reflector, generates a new query. -/
def run_reflection_query (render gen : Str → Str)
    (question history failed_query failure_reason : Str) :
    RunOut (Option Str) :=
  let history_short := if history.isEmpty then [] else pyTakeLast 500 history
  let prompt_content := reflectionQueryPromptOf question failed_query failure_reason
  let text_input := render prompt_content
  let response := gen text_input
  { ret := extractNewQuery response,
    calls := [{ batch := [text_input],
                params := { max_tokens := 100, temperatureTenths := 7 } }] }

/-- The prompt of run_presence_check: the document text truncated to its
first 30000 characters, substituted into the presence template. -/
def presencePromptOf (search_query document_text : Str) : Str :=
  PRESENCE_CHECK_PROMPT_fmt search_query (document_text.take 30000)

/-- reflection.py run_presence_check: boolean check that the info exists
in the batch of docs. -/
def run_presence_check (render gen : Str → Str)
    (search_query document_text : Str) : RunOut Bool :=
  let prompt_content := presencePromptOf search_query document_text
  let text_input := render prompt_content
  let response := gen text_input
  { ret := pyIn (strData "STATUS: PRESENT") response,
    calls := [{ batch := [text_input],
                params := { max_tokens := 10, temperatureTenths := 1 } }] }

/-- The prompt of run_refine_extraction: the document text truncated to
its first 35000 characters, substituted into the refine template. -/
def refinePromptOf (search_query document_text : Str) : Str :=
  REFINE_EXTRACTION_PROMPT_fmt search_query (document_text.take 35000)

/-- reflection.py run_refine_extraction: forces a re-read of the
documents; the completion is returned unchanged. -/
def run_refine_extraction (render gen : Str → Str)
    (search_query document_text : Str) : RunOut Str :=
  let prompt_content := refinePromptOf search_query document_text
  let text_input := render prompt_content
  { ret := gen text_input,
    calls := [{ batch := [text_input],
                params := { max_tokens := 1500, temperatureTenths := 5 } }] }

/-- The derived prompt of run_judge_content: last 500 characters of the
history (empty history stays empty) and the extracted info truncated to
2000 characters, substituted into the content-judgment template. -/
def judgeContentPromptOf (search_query history extracted_info : Str) : Str :=
  JUDGE_CONTENT_PROMPT_fmt search_query
    (if history.isEmpty then [] else pyTakeLast 500 history)
    (extracted_info.take 2000)

/-- Verdict parsing of run_judge_content (lines 199-204): YES anywhere
passes; EVERY other completion fails, with the text of
`split("| Reason:")[1].strip()` or the fixed fallback when the split
raises IndexError.  Unlike the snippet gate there is no check for the NO
marker: this gate fails closed. -/
def judgeVerdictContent (response : Str) : Bool × Option Str :=
  if pyIn (strData "JUDGEMENT: YES") response then (true, none)
  else
    match pySplit (strData "| Reason:") response with
    | _ :: p :: _ => (false, some (pyStrip p))
    | _ => (false, some (strData "Information was too vague or incomplete."))

/-- reflection.py run_judge_content: Gate 2, checks content sufficiency.
The question argument is accepted and unused, as in the source. -/
def run_judge_content (render gen : Str → Str)
    (question search_query history extracted_info : Str) :
    RunOut (Bool × Option Str) :=
  let prompt_content := judgeContentPromptOf search_query history extracted_info
  let text_input := render prompt_content
  let response := gen text_input
  { ret := judgeVerdictContent response,
    calls := [{ batch := [text_input],
                params := { max_tokens := 100, temperatureTenths := 1 } }] }

/-- The prompt of run_reflection_content: info truncated to 1000 characters. -/
def reflectionContentPromptOf (question search_query extracted_info failure_reason : Str) : Str :=
  REFLECTION_CONTENT_PROMPT_fmt question search_query failure_reason (extracted_info.take 1000)

/-- reflection.py run_reflection_content: Gate 2 reflector, generates a
search direction; returns the stripped completion. -/
def run_reflection_content (render gen : Str → Str)
    (question search_query extracted_info failure_reason : Str) : RunOut Str :=
  let prompt_content := reflectionContentPromptOf question search_query extracted_info failure_reason
  let text_input := render prompt_content
  { ret := pyStrip (gen text_input),
    calls := [{ batch := [text_input],
                params := { max_tokens := 300, temperatureTenths := 7 } }] }

/-- The prompt of run_hallucination_check: the final answer truncated to
2000 characters. -/
def hallucinationPromptOf (question final_answer : Str) : Str :=
  HALLUCINATION_CHECK_PROMPT_fmt question (final_answer.take 2000)

/-- reflection.py run_hallucination_check: post-hoc check for uncited
claims; true iff the YES marker occurs in the completion. -/
def run_hallucination_check (render gen : Str → Str)
    (question final_answer : Str) : RunOut Bool :=
  let prompt_content := hallucinationPromptOf question final_answer
  let text_input := render prompt_content
  let response := gen text_input
  { ret := pyIn (strData "JUDGEMENT: YES") response,
    calls := [{ batch := [text_input],
                params := { max_tokens := 50, temperatureTenths := 1 } }] }

/-! Section: readings of the specification text.

The two definitions below follow the words of the specification (not the
source) and exist only to be compared with the embedded code. -/

/-- Reading of the spec sentence for the reflection-query extraction:
split on the first occurrence of the label, return the content up to the
next newline, trimmed; none if the label is absent. -/
def reflectionQueryClaim (response : Str) : Option Str :=
  match pyBreak (strData "New_Query:") response with
  | none => none
  | some (_, rest) => some (pyStrip ((pySplit (strData "\n") rest).headD []))

/-- Reading of the spec sentence for the failure reason of the snippet
gate: the text following the reason delimiter, trimmed; none when the
delimiter is absent. -/
def reasonAfterDelimClaim (response : Str) : Option Str :=
  (pyBreak (strData "| Reason:") response).map (fun p => pyStrip p.2)

/-! Section: lemmas about the string primitives. -/

theorem startsWithL_iff (p : Str) : ∀ s : Str, startsWithL p s = true ↔ ∃ t, s = p ++ t := by
  induction p with
  | nil =>
    intro s
    constructor
    · intro _; exact ⟨s, rfl⟩
    · intro _; rfl
  | cons a ps ih =>
    intro s
    cases s with
    | nil =>
      constructor
      · intro h; exact absurd h (by simp [startsWithL])
      · rintro ⟨t, ht⟩; exact absurd ht (by simp)
    | cons c cs =>
      constructor
      · intro h
        simp only [startsWithL, Bool.and_eq_true, beq_iff_eq] at h
        obtain ⟨t, ht⟩ := (ih cs).mp h.2
        exact ⟨t, by simp [h.1, ht]⟩
      · rintro ⟨t, ht⟩
        simp only [List.cons_append, List.cons.injEq] at ht
        simp only [startsWithL, Bool.and_eq_true, beq_iff_eq]
        exact ⟨ht.1.symm, (ih cs).mpr ⟨t, ht.2⟩⟩

theorem breakOn_some_decomp {s0 : Char} {st : Str} :
    ∀ {s pre post : Str}, breakOn s0 st s = some (pre, post) →
      s = pre ++ (s0 :: st) ++ post := by
  intro s
  induction s with
  | nil => intro pre post h; exact absurd h (by simp [breakOn])
  | cons c rest ih =>
    intro pre post h
    simp only [breakOn] at h
    by_cases hp : startsWithL (s0 :: st) (c :: rest) = true
    · rw [if_pos hp] at h
      simp only [Option.some.injEq, Prod.mk.injEq] at h
      obtain ⟨hpre, hpost⟩ := h
      subst hpre
      obtain ⟨t, ht⟩ := (startsWithL_iff _ _).mp hp
      simp only [List.cons_append, List.cons.injEq] at ht
      obtain ⟨hc, hrest⟩ := ht
      subst hc
      subst hrest
      rw [List.drop_left] at hpost
      subst hpost
      simp
    · rw [if_neg hp] at h
      cases hb : breakOn s0 st rest with
      | none => rw [hb] at h; exact absurd h (by simp)
      | some pq =>
        obtain ⟨p2, q2⟩ := pq
        rw [hb] at h
        simp only [Option.map_some', Option.some.injEq, Prod.mk.injEq] at h
        obtain ⟨hpre, hpost⟩ := h
        subst hpost
        subst hpre
        simp [ih hb]

theorem breakOn_post_lt {s0 : Char} {st s pre post : Str}
    (h : breakOn s0 st s = some (pre, post)) : post.length < s.length := by
  have hd := breakOn_some_decomp h
  have hl := congrArg List.length hd
  simp [List.length_append] at hl
  omega

theorem breakOn_isSome_of_decomp {s0 : Char} {st : Str} :
    ∀ (pre post s : Str), s = pre ++ (s0 :: st) ++ post →
      (breakOn s0 st s).isSome = true := by
  intro pre
  induction pre with
  | nil =>
    intro post s h
    subst h
    have hsw : startsWithL (s0 :: st) (s0 :: (st ++ post)) = true :=
      (startsWithL_iff _ _).mpr ⟨post, by simp⟩
    simp only [List.nil_append, List.cons_append]
    simp [breakOn, hsw]
  | cons c pre' ih =>
    intro post s h
    subst h
    simp only [List.cons_append, List.append_assoc]
    simp only [breakOn]
    by_cases hp : startsWithL (s0 :: st) (c :: (pre' ++ (s0 :: (st ++ post)))) = true
    · simp [hp]
    · rw [if_neg hp]
      have hih := ih post (pre' ++ (s0 :: st) ++ post) rfl
      simp only [List.append_assoc, List.cons_append] at hih
      cases hb : breakOn s0 st (pre' ++ s0 :: (st ++ post)) with
      | none => rw [hb] at hih; simp at hih
      | some pq => simp

/-- The executable substring test agrees with the mathematical one:
`sub` occurs in `s` iff `s` decomposes around `sub`. -/
theorem pyIn_iff (sub s : Str) :
    pyIn sub s = true ↔ ∃ pre post, s = pre ++ sub ++ post := by
  cases sub with
  | nil =>
    simp only [pyIn, pyBreak, Option.isSome_some]
    exact ⟨fun _ => ⟨[], s, by simp⟩, fun _ => trivial⟩
  | cons s0 st =>
    simp only [pyIn, pyBreak]
    constructor
    · intro h
      cases hb : breakOn s0 st s with
      | none => rw [hb] at h; exact absurd h (by simp)
      | some pq =>
        obtain ⟨pre, post⟩ := pq
        exact ⟨pre, post, breakOn_some_decomp hb⟩
    · rintro ⟨pre, post, rfl⟩
      exact breakOn_isSome_of_decomp pre post _ rfl

theorem breakOn_single_none {c : Char} :
    ∀ {s : Str}, breakOn c [] s = none → c ∉ s := by
  intro s
  induction s with
  | nil => intro _ h; exact absurd h (List.not_mem_nil c)
  | cons d rest ih =>
    intro h
    simp only [breakOn, startsWithL, Bool.and_true] at h
    by_cases hd : (c == d) = true
    · rw [if_pos hd] at h; exact absurd h (by simp)
    · rw [if_neg hd] at h
      cases hb : breakOn c [] rest with
      | none =>
        intro hmem
        rcases List.mem_cons.mp hmem with h1 | h2
        · exact hd (by simp [h1])
        · exact ih hb h2
      | some pq => rw [hb] at h; exact absurd h (by simp)

theorem breakOn_single_pre {c : Char} :
    ∀ {s pre post : Str}, breakOn c [] s = some (pre, post) → c ∉ pre := by
  intro s
  induction s with
  | nil => intro pre post h; exact absurd h (by simp [breakOn])
  | cons d rest ih =>
    intro pre post h
    simp only [breakOn, startsWithL, Bool.and_true] at h
    by_cases hd : (c == d) = true
    · rw [if_pos hd] at h
      simp only [Option.some.injEq, Prod.mk.injEq] at h
      rw [← h.1]
      exact List.not_mem_nil c
    · rw [if_neg hd] at h
      cases hb : breakOn c [] rest with
      | none => rw [hb] at h; exact absurd h (by simp)
      | some pq =>
        obtain ⟨p2, q2⟩ := pq
        rw [hb] at h
        simp only [Option.map_some', Option.some.injEq, Prod.mk.injEq] at h
        rw [← h.1]
        intro hmem
        rcases List.mem_cons.mp hmem with h1 | h2
        · exact hd (by simp [h1])
        · exact ih hb h2

theorem splitGo_ne_nil (fuel : Nat) (s0 : Char) (st s : Str) :
    splitGo fuel s0 st s ≠ [] := by
  cases fuel with
  | zero => simp [splitGo]
  | succ f =>
    simp only [splitGo]
    cases hb : breakOn s0 st s with
    | none => simp
    | some pq => obtain ⟨pre, post⟩ := pq; simp

theorem splitGo_fuel_eq (s0 : Char) (st : Str) :
    ∀ (f g : Nat) (s : Str), s.length < f → s.length < g →
      splitGo f s0 st s = splitGo g s0 st s := by
  intro f
  induction f with
  | zero => intro g s hf _; exact absurd hf (Nat.not_lt_zero _)
  | succ f ih =>
    intro g s hf hg
    cases g with
    | zero => exact absurd hg (Nat.not_lt_zero _)
    | succ g' =>
      simp only [splitGo]
      cases hb : breakOn s0 st s with
      | none => rfl
      | some pq =>
        obtain ⟨pre, post⟩ := pq
        have hlt := breakOn_post_lt hb
        show pre :: splitGo f s0 st post = pre :: splitGo g' s0 st post
        rw [ih g' post (by omega) (by omega)]

theorem pySplit_of_breakOn_none {s0 : Char} {st s : Str}
    (h : breakOn s0 st s = none) : pySplit (s0 :: st) s = [s] := by
  simp [pySplit, splitGo, h]

theorem pySplit_cons_of_breakOn {s0 : Char} {st s pre post : Str}
    (h : breakOn s0 st s = some (pre, post)) :
    pySplit (s0 :: st) s = pre :: pySplit (s0 :: st) post := by
  have hlt := breakOn_post_lt h
  have l1 : pySplit (s0 :: st) s = pre :: splitGo s.length s0 st post := by
    show splitGo (s.length + 1) s0 st s = _
    simp only [splitGo, h]
  rw [l1]
  rw [splitGo_fuel_eq s0 st s.length (post.length + 1) post (by omega) (by omega)]
  rfl

/-- The first chunk of a single-character split never contains the
separating character. -/
theorem single_split_head_not_mem (c : Char) (s : Str) :
    c ∉ (pySplit [c] s).headD [] := by
  cases hb : breakOn c [] s with
  | none =>
    rw [pySplit_of_breakOn_none hb]
    simpa using breakOn_single_none hb
  | some pq =>
    obtain ⟨pre, post⟩ := pq
    rw [pySplit_cons_of_breakOn hb]
    simpa using breakOn_single_pre hb

/-- When the separator does not occur, Python split returns the whole
string as the only chunk. -/
theorem pySplit_eq_single_of_not_pyIn {s0 : Char} {st s : Str}
    (h : pyIn (s0 :: st) s = false) : pySplit (s0 :: st) s = [s] := by
  apply pySplit_of_breakOn_none
  cases hb : breakOn s0 st s with
  | none => rfl
  | some pq =>
    rw [pyIn, pyBreak, hb] at h
    exact absurd h (by simp)

/-! Section: lemmas about the gate verdicts. -/

theorem run_judge_snippet_ret (render gen : Str → Str)
    (question history query : Str) (results : List ResultRecord) :
    (run_judge_snippet render gen question history query results).ret =
      judgeVerdictSnippet (gen (render (judgeSnippetPromptOf question query results))) := rfl

theorem run_judge_content_ret (render gen : Str → Str)
    (question search_query history extracted_info : Str) :
    (run_judge_content render gen question search_query history extracted_info).ret =
      judgeVerdictContent (gen (render (judgeContentPromptOf search_query history extracted_info))) := rfl

theorem run_reflection_query_ret (render gen : Str → Str)
    (question history failed_query failure_reason : Str) :
    (run_reflection_query render gen question history failed_query failure_reason).ret =
      extractNewQuery (gen (render (reflectionQueryPromptOf question failed_query failure_reason))) := rfl

theorem judgeVerdictSnippet_reason_iff (r : Str) :
    (judgeVerdictSnippet r).2.isSome = true ↔ (judgeVerdictSnippet r).1 = false := by
  unfold judgeVerdictSnippet
  by_cases h1 : pyIn (strData "JUDGEMENT: YES") r = true
  · simp [h1]
  · by_cases h2 : pyIn (strData "JUDGEMENT: NO") r = true
    · rcases hs : pySplit (strData "| Reason:") r with _ | ⟨a, _ | ⟨b, t⟩⟩ <;>
        simp [h1, h2, hs]
    · simp [h1, h2]

theorem judgeVerdictContent_reason_iff (r : Str) :
    (judgeVerdictContent r).2.isSome = true ↔ (judgeVerdictContent r).1 = false := by
  unfold judgeVerdictContent
  by_cases h1 : pyIn (strData "JUDGEMENT: YES") r = true
  · simp [h1]
  · rcases hs : pySplit (strData "| Reason:") r with _ | ⟨a, _ | ⟨b, t⟩⟩ <;>
      simp [h1, hs]

theorem judgeVerdictSnippet_fallback (r : Str)
    (hd : pyIn (strData "| Reason:") r = false)
    (hf : (judgeVerdictSnippet r).1 = false) :
    (judgeVerdictSnippet r).2 = some (strData "Results appeared irrelevant.") := by
  have hs : pySplit (strData "| Reason:") r = [r] := pySplit_eq_single_of_not_pyIn hd
  unfold judgeVerdictSnippet at hf ⊢
  by_cases h1 : pyIn (strData "JUDGEMENT: YES") r = true
  · simp [h1] at hf
  · by_cases h2 : pyIn (strData "JUDGEMENT: NO") r = true
    · simp [h1, h2, hs]
    · simp [h1, h2] at hf

theorem judgeVerdictContent_fallback (r : Str)
    (hd : pyIn (strData "| Reason:") r = false)
    (hf : (judgeVerdictContent r).1 = false) :
    (judgeVerdictContent r).2 = some (strData "Information was too vague or incomplete.") := by
  have hs : pySplit (strData "| Reason:") r = [r] := pySplit_eq_single_of_not_pyIn hd
  unfold judgeVerdictContent at hf ⊢
  by_cases h1 : pyIn (strData "JUDGEMENT: YES") r = true
  · simp [h1] at hf
  · simp [h1, hs]

theorem judgeVerdictContent_failed_of_no_yes (r : Str)
    (h1 : pyIn (strData "JUDGEMENT: YES") r = false) :
    (judgeVerdictContent r).1 = false ∧ (judgeVerdictContent r).2.isSome = true := by
  unfold judgeVerdictContent
  rcases hs : pySplit (strData "| Reason:") r with _ | ⟨a, _ | ⟨b, t⟩⟩ <;>
    simp [h1, hs]

/-! Section: the claims. -/

/-- C1: counterexample.  The empty completion contains neither
"JUDGEMENT: YES" nor "JUDGEMENT: NO", yet run_judge_content returns
passed = false with the fallback reason instead of (true, none): the
content gate has no fail-open default, contrary to the claim. -/
theorem C1_counterexample :
    pyIn (strData "JUDGEMENT: YES") [] = false ∧
    pyIn (strData "JUDGEMENT: NO") [] = false ∧
    (run_judge_content (fun s => s) (fun _ => []) [] [] [] []).ret =
      (false, some (strData "Information was too vague or incomplete.")) ∧
    (run_judge_content (fun s => s) (fun _ => []) [] [] [] []).ret ≠ (true, none) := by
  decide

/-- C1 (amended): a completion with neither judgment marker yields
(true, none) from run_judge_snippet (fail-open), while run_judge_content
fails closed: whenever "JUDGEMENT: YES" is absent from its completion it
returns passed = false together with some reason. -/
theorem C1_amended (render gen : Str → Str)
    (question history query : Str) (results : List ResultRecord)
    (question2 search_query2 history2 info2 : Str)
    (hy : pyIn (strData "JUDGEMENT: YES")
      (gen (render (judgeSnippetPromptOf question query results))) = false)
    (hn : pyIn (strData "JUDGEMENT: NO")
      (gen (render (judgeSnippetPromptOf question query results))) = false)
    (hy2 : pyIn (strData "JUDGEMENT: YES")
      (gen (render (judgeContentPromptOf search_query2 history2 info2))) = false) :
    (run_judge_snippet render gen question history query results).ret = (true, none) ∧
    (run_judge_content render gen question2 search_query2 history2 info2).ret.1 = false ∧
    (run_judge_content render gen question2 search_query2 history2 info2).ret.2.isSome = true := by
  rw [run_judge_snippet_ret, run_judge_content_ret]
  refine ⟨?_, judgeVerdictContent_failed_of_no_yes _ hy2⟩
  unfold judgeVerdictSnippet
  simp [hy, hn]

/-- C1: witness for the amended claim at concrete inputs. -/
theorem C1_witness :
    (run_judge_snippet (fun s => s) (fun _ => []) [] [] [] []).ret = (true, none) ∧
    (run_judge_content (fun s => s) (fun _ => []) [] [] [] []).ret.1 = false ∧
    (run_judge_content (fun s => s) (fun _ => []) [] [] [] []).ret.2.isSome = true :=
  C1_amended (fun s => s) (fun _ => []) [] [] [] [] [] [] [] []
    (by decide) (by decide) (by decide)

set_option maxRecDepth 100000 in
/-- C2: at a concrete call with the non-empty history "XYZZY", the one
prompt run_judge_snippet sends to the backend is exactly the rendering
of question, query and snippets — the snippet does occur in it, but the
last 500 characters of the history do not: JUDGE_SNIPPET_PROMPT has no
history placeholder, so the history that run_judge_snippet computes and
passes to str.format is silently dropped. -/
theorem C2_bug :
    (strData "XYZZY").isEmpty = false ∧
    pyTakeLast 500 (strData "XYZZY") = strData "XYZZY" ∧
    (run_judge_snippet (fun s => s) (fun _ => []) (strData "q") (strData "XYZZY")
        (strData "s") [{ snippet := some (strData "snippety") }]).calls.map
        (fun g => g.batch) =
      [[judgeSnippetPromptOf (strData "q") (strData "s")
          [{ snippet := some (strData "snippety") }]]] ∧
    pyIn (strData "- snippety")
      (judgeSnippetPromptOf (strData "q") (strData "s")
        [{ snippet := some (strData "snippety") }]) = true ∧
    pyIn (strData "XYZZY")
      (judgeSnippetPromptOf (strData "q") (strData "s")
        [{ snippet := some (strData "snippety") }]) = false := by
  decide

theorem pySplit_ne_nil (sep s : Str) : pySplit sep s ≠ [] := by
  cases sep with
  | nil => simp [pySplit]
  | cons s0 st => exact splitGo_ne_nil _ _ _ _

theorem pySplit_cons_of_pyBreak {sep s pre post : Str}
    (hne : sep ≠ []) (h : pyBreak sep s = some (pre, post)) :
    pySplit sep s = pre :: pySplit sep post := by
  cases sep with
  | nil => exact absurd rfl hne
  | cons s0 st => exact pySplit_cons_of_breakOn h

theorem pySplit_single_of_pyBreak_none {sep s : Str}
    (h : pyBreak sep s = none) : pySplit sep s = [s] := by
  cases sep with
  | nil => exact absurd h (by simp [pyBreak])
  | cons s0 st => exact pySplit_of_breakOn_none h

/-- C3: counterexample.  On the completion "New_Query:\nfoo" (newline
directly after the label) the code strips the remainder before taking
the first line and returns "foo", while the claim reading (content up to
the next newline, trimmed) returns the empty string. -/
theorem C3_counterexample :
    (run_reflection_query (fun s => s) (fun _ => strData "New_Query:\nfoo") [] [] [] []).ret =
      some (strData "foo") ∧
    reflectionQueryClaim (strData "New_Query:\nfoo") = some [] ∧
    (run_reflection_query (fun s => s) (fun _ => strData "New_Query:\nfoo") [] [] [] []).ret ≠
      reflectionQueryClaim (strData "New_Query:\nfoo") := by
  decide

/-- C3 (amended): run_reflection_query returns none exactly when the
label "New_Query:" is absent from the completion, and it never raises
(the embedding is total); otherwise it takes the segment of the
completion between the first and second occurrences of the label (the
whole remainder when the label occurs exactly once), strips surrounding
whitespace, and returns the first line of the stripped text. -/
theorem C3_theorem (render gen : Str → Str)
    (question history failed_query failure_reason : Str) :
    (run_reflection_query render gen question history failed_query failure_reason).ret =
      match pyBreak (strData "New_Query:")
          (gen (render (reflectionQueryPromptOf question failed_query failure_reason))) with
      | none => none
      | some (_, rest) =>
        some ((pySplit (strData "\n")
          (pyStrip ((pySplit (strData "New_Query:") rest).headD rest))).headD []) := by
  rw [run_reflection_query_ret]
  set r := gen (render (reflectionQueryPromptOf question failed_query failure_reason)) with hr
  unfold extractNewQuery
  cases hb : pyBreak (strData "New_Query:") r with
  | none =>
    have hin : pyIn (strData "New_Query:") r = false := by simp [pyIn, hb]
    simp [hin]
  | some pq =>
    obtain ⟨pre, rest⟩ := pq
    have hin : pyIn (strData "New_Query:") r = true := by simp [pyIn, hb]
    have hsp : pySplit (strData "New_Query:") r = pre :: pySplit (strData "New_Query:") rest :=
      pySplit_cons_of_pyBreak (by decide) hb
    obtain ⟨p, L, hpl⟩ : ∃ p L, pySplit (strData "New_Query:") rest = p :: L := by
      cases hq : pySplit (strData "New_Query:") rest with
      | nil => exact absurd hq (pySplit_ne_nil _ _)
      | cons p L => exact ⟨p, L, rfl⟩
    rw [hpl] at hsp
    simp [hin, hsp, hpl]

/-- C4: counterexample.  When the reason delimiter occurs twice, the
code returns only the segment between the first and second occurrences
("a"), not the text following the delimiter ("a | Reason: b") as the
claim states. -/
theorem C4_counterexample :
    pyIn (strData "JUDGEMENT: YES") (strData "JUDGEMENT: NO | Reason: a | Reason: b") = false ∧
    pyIn (strData "JUDGEMENT: NO") (strData "JUDGEMENT: NO | Reason: a | Reason: b") = true ∧
    reasonAfterDelimClaim (strData "JUDGEMENT: NO | Reason: a | Reason: b") =
      some (strData "a | Reason: b") ∧
    (run_judge_snippet (fun s => s) (fun _ => strData "JUDGEMENT: NO | Reason: a | Reason: b")
      [] [] [] []).ret = (false, some (strData "a")) ∧
    some (strData "a") ≠ some (strData "a | Reason: b") := by
  decide

/-- C4 (amended): run_judge_snippet returns (true, none) whenever
"JUDGEMENT: YES" occurs anywhere in the completion, even if
"JUDGEMENT: NO" also occurs; otherwise, when "JUDGEMENT: NO" occurs, it
returns false together with the segment of the completion between the
first and second occurrences of "| Reason:" (the whole remainder when
the delimiter occurs exactly once), trimmed, or the fixed fallback
reason when the delimiter is absent. -/
theorem C4_amended (render gen : Str → Str)
    (question history query : Str) (results : List ResultRecord) :
    (pyIn (strData "JUDGEMENT: YES")
        (gen (render (judgeSnippetPromptOf question query results))) = true →
      (run_judge_snippet render gen question history query results).ret = (true, none)) ∧
    (pyIn (strData "JUDGEMENT: YES")
        (gen (render (judgeSnippetPromptOf question query results))) = false →
     pyIn (strData "JUDGEMENT: NO")
        (gen (render (judgeSnippetPromptOf question query results))) = true →
      (run_judge_snippet render gen question history query results).ret =
        (false, some (match pyBreak (strData "| Reason:")
            (gen (render (judgeSnippetPromptOf question query results))) with
          | none => strData "Results appeared irrelevant."
          | some (_, rest) =>
            pyStrip ((pySplit (strData "| Reason:") rest).headD rest)))) := by
  rw [run_judge_snippet_ret]
  set r := gen (render (judgeSnippetPromptOf question query results)) with hr
  constructor
  · intro hy
    unfold judgeVerdictSnippet
    simp [hy]
  · intro hy hn
    unfold judgeVerdictSnippet
    cases hb : pyBreak (strData "| Reason:") r with
    | none =>
      have hsp := pySplit_single_of_pyBreak_none hb
      simp [hy, hn, hsp]
    | some pq =>
      obtain ⟨pre, rest⟩ := pq
      have hsp : pySplit (strData "| Reason:") r = pre :: pySplit (strData "| Reason:") rest :=
        pySplit_cons_of_pyBreak (by decide) hb
      obtain ⟨p, L, hpl⟩ : ∃ p L, pySplit (strData "| Reason:") rest = p :: L := by
        cases hq : pySplit (strData "| Reason:") rest with
        | nil => exact absurd hq (pySplit_ne_nil _ _)
        | cons p L => exact ⟨p, L, rfl⟩
      rw [hpl] at hsp
      simp [hy, hn, hsp, hpl]

/-- C4: witness for the amended claim at a concrete completion. -/
theorem C4_witness :
    (run_judge_snippet (fun s => s) (fun _ => strData "JUDGEMENT: NO | Reason: x")
      [] [] [] []).ret = (false, some (strData "x")) := by
  have h := (C4_amended (fun s => s) (fun _ => strData "JUDGEMENT: NO | Reason: x")
    [] [] [] []).2 (by decide) (by decide)
  rw [h]
  decide

/-- C5: for both gates, the returned reason is a non-null string iff
passed is false; and when the "| Reason:" delimiter is absent from the
completion, a failed verdict carries the fixed fallback reason of its
gate rather than no reason. -/
theorem C5_theorem (render gen : Str → Str)
    (question history query : Str) (results : List ResultRecord)
    (question2 search_query2 history2 info2 : Str) :
    ((run_judge_snippet render gen question history query results).ret.2.isSome = true ↔
      (run_judge_snippet render gen question history query results).ret.1 = false) ∧
    ((run_judge_content render gen question2 search_query2 history2 info2).ret.2.isSome = true ↔
      (run_judge_content render gen question2 search_query2 history2 info2).ret.1 = false) ∧
    (pyIn (strData "| Reason:")
        (gen (render (judgeSnippetPromptOf question query results))) = false →
      (run_judge_snippet render gen question history query results).ret.1 = false →
      (run_judge_snippet render gen question history query results).ret.2 =
        some (strData "Results appeared irrelevant.")) ∧
    (pyIn (strData "| Reason:")
        (gen (render (judgeContentPromptOf search_query2 history2 info2))) = false →
      (run_judge_content render gen question2 search_query2 history2 info2).ret.1 = false →
      (run_judge_content render gen question2 search_query2 history2 info2).ret.2 =
        some (strData "Information was too vague or incomplete.")) := by
  rw [run_judge_snippet_ret, run_judge_content_ret]
  exact ⟨judgeVerdictSnippet_reason_iff _, judgeVerdictContent_reason_iff _,
    judgeVerdictSnippet_fallback _, judgeVerdictContent_fallback _⟩

/-- C5: witness at a completion that contains "JUDGEMENT: NO" and no
reason delimiter: both gates fail with their fallback reasons. -/
theorem C5_witness :
    (run_judge_snippet (fun s => s) (fun _ => strData "JUDGEMENT: NO") [] [] [] []).ret.2 =
      some (strData "Results appeared irrelevant.") ∧
    (run_judge_content (fun s => s) (fun _ => strData "JUDGEMENT: NO") [] [] [] []).ret.2 =
      some (strData "Information was too vague or incomplete.") :=
  ⟨(C5_theorem (fun s => s) (fun _ => strData "JUDGEMENT: NO")
      [] [] [] [] [] [] [] []).2.2.1 (by decide) (by decide),
   (C5_theorem (fun s => s) (fun _ => strData "JUDGEMENT: NO")
      [] [] [] [] [] [] [] []).2.2.2 (by decide) (by decide)⟩

/-- C6: run_presence_check returns true iff the literal
"STATUS: PRESENT" occurs as a substring of the backend completion; every
other completion — including one containing only "STATUS: ABSENT",
ambiguous text, or the empty string — yields false. -/
theorem C6_theorem (render gen : Str → Str) (search_query document_text : Str) :
    (run_presence_check render gen search_query document_text).ret = true ↔
      ∃ pre post, gen (render (presencePromptOf search_query document_text)) =
        pre ++ strData "STATUS: PRESENT" ++ post :=
  pyIn_iff _ _

/-- C7: run_presence_check depends on the document text only through its
first 30000 characters and uses the 10-token output budget, while
run_refine_extraction depends on it only through its first 35000
characters, uses the 1500-token output budget, and returns the backend
completion unchanged. -/
theorem C7_theorem (render gen : Str → Str) (search_query doc doc2 : Str)
    (h30 : doc.take 30000 = doc2.take 30000)
    (h35 : doc.take 35000 = doc2.take 35000) :
    (run_presence_check render gen search_query doc).ret =
      (run_presence_check render gen search_query doc2).ret ∧
    (run_presence_check render gen search_query doc).calls =
      [{ batch := [render (presencePromptOf search_query doc)],
         params := { max_tokens := 10, temperatureTenths := 1 } }] ∧
    (run_refine_extraction render gen search_query doc).ret =
      (run_refine_extraction render gen search_query doc2).ret ∧
    (run_refine_extraction render gen search_query doc).ret =
      gen (render (refinePromptOf search_query doc)) ∧
    (run_refine_extraction render gen search_query doc).calls =
      [{ batch := [render (refinePromptOf search_query doc)],
         params := { max_tokens := 1500, temperatureTenths := 5 } }] := by
  have hp : presencePromptOf search_query doc = presencePromptOf search_query doc2 := by
    unfold presencePromptOf
    rw [h30]
  have hrf : refinePromptOf search_query doc = refinePromptOf search_query doc2 := by
    unfold refinePromptOf
    rw [h35]
  refine ⟨?_, rfl, ?_, rfl, rfl⟩
  · show pyIn (strData "STATUS: PRESENT") (gen (render (presencePromptOf search_query doc))) =
      pyIn (strData "STATUS: PRESENT") (gen (render (presencePromptOf search_query doc2)))
    rw [hp]
  · show gen (render (refinePromptOf search_query doc)) =
      gen (render (refinePromptOf search_query doc2))
    rw [hrf]

/-- C7: witness on two documents that agree on their first 35000
characters and differ afterwards. -/
theorem C7_witness :
    (run_presence_check (fun s => s) (fun s => s) [] (List.replicate 35000 'a')).ret =
      (run_presence_check (fun s => s) (fun s => s) []
        (List.replicate 35000 'a' ++ ['b'])).ret ∧
    (run_refine_extraction (fun s => s) (fun s => s) [] (List.replicate 35000 'a')).ret =
      (run_refine_extraction (fun s => s) (fun s => s) []
        (List.replicate 35000 'a' ++ ['b'])).ret := by
  have hlen : (35000 : Nat) ≤ (List.replicate 35000 'a').length :=
    le_of_eq (List.length_replicate 35000 'a').symm
  have h30 : (List.replicate 35000 'a' : Str).take 30000 =
      ((List.replicate 35000 'a' : Str) ++ ['b']).take 30000 :=
    (List.take_append_of_le_length (le_trans (by omega) hlen)).symm
  have h35 : (List.replicate 35000 'a' : Str).take 35000 =
      ((List.replicate 35000 'a' : Str) ++ ['b']).take 35000 :=
    (List.take_append_of_le_length hlen).symm
  have h := C7_theorem (fun s => s) (fun s => s) [] (List.replicate 35000 'a')
    (List.replicate 35000 'a' ++ ['b']) h30 h35
  exact ⟨h.1, h.2.2.1⟩

/-- C8: every run_* function issues exactly one generate call per
invocation, and that call carries a batch of exactly one rendered
prompt. -/
theorem C8_theorem (render gen : Str → Str) (a b c d : Str)
    (results : List ResultRecord) :
    (run_judge_snippet render gen a b c results).calls.map (fun g => g.batch.length) = [1] ∧
    (run_reflection_query render gen a b c d).calls.map (fun g => g.batch.length) = [1] ∧
    (run_presence_check render gen a b).calls.map (fun g => g.batch.length) = [1] ∧
    (run_refine_extraction render gen a b).calls.map (fun g => g.batch.length) = [1] ∧
    (run_judge_content render gen a b c d).calls.map (fun g => g.batch.length) = [1] ∧
    (run_reflection_content render gen a b c d).calls.map (fun g => g.batch.length) = [1] ∧
    (run_hallucination_check render gen a b).calls.map (fun g => g.batch.length) = [1] :=
  ⟨rfl, rfl, rfl, rfl, rfl, rfl, rfl⟩

/-- C9: whenever run_reflection_query returns a string rather than none,
that string contains no newline character: the proposed replacement
query is always a single line. -/
theorem C9_theorem (render gen : Str → Str)
    (question history failed_query failure_reason s : Str)
    (h : (run_reflection_query render gen question history failed_query failure_reason).ret =
      some s) :
    '\n' ∉ s := by
  rw [run_reflection_query_ret] at h
  unfold extractNewQuery at h
  by_cases hin : pyIn (strData "New_Query:")
      (gen (render (reflectionQueryPromptOf question failed_query failure_reason))) = true
  · simp only [hin, if_true] at h
    rcases hsp : pySplit (strData "New_Query:")
        (gen (render (reflectionQueryPromptOf question failed_query failure_reason))) with
      _ | ⟨a, _ | ⟨p, L⟩⟩
    · rw [hsp] at h
      exact absurd h (by simp)
    · rw [hsp] at h
      exact absurd h (by simp)
    · rw [hsp] at h
      simp only [Option.some.injEq] at h
      subst h
      exact single_split_head_not_mem '\n' (pyStrip p)
  · simp only [hin, if_false] at h
    exact absurd h (by simp)

/-- C9: witness at a concrete completion carrying a new query. -/
theorem C9_witness : '\n' ∉ strData "q7" :=
  C9_theorem (fun s => s) (fun _ => strData "New_Query: q7") [] [] [] []
    (strData "q7") (by decide)

/-- C10: for every completion that does not contain the substring
"JUDGEMENT: YES" — including empty output and output containing
"JUDGEMENT: NO" — run_hallucination_check returns false: the finalized
answer is not flagged as hallucinated. -/
theorem C10_theorem (render gen : Str → Str) (question final_answer : Str)
    (h : ¬ ∃ pre post, gen (render (hallucinationPromptOf question final_answer)) =
      pre ++ strData "JUDGEMENT: YES" ++ post) :
    (run_hallucination_check render gen question final_answer).ret = false := by
  cases hb : pyIn (strData "JUDGEMENT: YES")
      (gen (render (hallucinationPromptOf question final_answer))) with
  | true => exact absurd ((pyIn_iff _ _).mp hb) h
  | false => exact hb

/-- C10: witness at the completion "JUDGEMENT: NO". -/
theorem C10_witness :
    (run_hallucination_check (fun s => s) (fun _ => strData "JUDGEMENT: NO") [] []).ret =
      false := by
  apply C10_theorem
  intro hex
  have hc : pyIn (strData "JUDGEMENT: YES") (strData "JUDGEMENT: NO") = true :=
    (pyIn_iff _ _).mpr hex
  exact absurd hc (by decide)
